import Mathlib

/-!
# Kerala Lens — verification of the media/session core

Shallow embedding of the client-side orchestration layer of the Kerala Lens
visual-translation app: the session state machine and history store
(`src/App.tsx`, `src/unnamed/part_000`), the text re-translation path
(`src/services/gemini.ts`), the PCM audio decoding and playback logic
(`src/unnamed/part_002`, `src/components/TranslationCard.tsx`), and the
camera acquisition fallback ladder (`src/components/CameraInput.tsx`).

Effectful code is embedded as pure functions over explicit state, with the
outcomes of external collaborator calls (translation service, speech
synthesis, `getUserMedia`) passed in as parameters, and clock readings
(`Date.now()`) passed in explicitly — one parameter per call site.
-/

namespace KeralaLens

/-! ## Data model (src/types.ts) -/

/-- `Recommendation` from src/types.ts. -/
structure Recommendation where
  name : String
  description : String
deriving Repr, DecidableEq

/-- `EssentialPhrase` from src/types.ts. -/
structure EssentialPhrase where
  label : String
  text : String
  pronunciation : String
deriving Repr, DecidableEq

/-- `TranslationResult` from src/types.ts.  Optional TS fields become
`Option`; `confidenceScore` is a 0–100 number, modelled as `Nat`. -/
structure TranslationResult where
  detectedText : String
  translatedText : String
  sourceLanguage : String
  targetLanguage : String
  confidenceScore : Option Nat
  recommendations : Option (List Recommendation)
  essentialPhrases : Option (List EssentialPhrase)
  travelTip : Option String
deriving Repr, DecidableEq

/-- `HistoryItem extends TranslationResult` (src/types.ts): a translation
result plus `{id, timestamp, imageUrl?}`. -/
structure HistoryItem where
  translation : TranslationResult
  id : String
  timestamp : Nat
  imageUrl : Option String
deriving Repr, DecidableEq

/-- `AppState` enum from src/types.ts. -/
inductive AppState where
  | IDLE | PROCESSING | SUCCESS | ERROR
deriving Repr, DecidableEq

/-- The `processingStage` values `'reading' | 'translating'` (src/App.tsx:27). -/
inductive ProcessingStage where
  | reading | translating
deriving Repr, DecidableEq

/-! ## Text re-translation (src/services/gemini.ts, `translateText`)

The remote call is abstracted by its parsed JSON response: the schema
requires `translatedText` and `targetLanguage`, but the code still guards
`result.targetLanguage || targetLanguage`, so the response's
`targetLanguage` is modelled as an `Option` (`none` covers a missing or
falsy value). -/

/-- Parsed response of the text-only translation call (gemini.ts:182–197). -/
structure TextTranslationResponse where
  translatedText : String
  targetLanguage : Option String
deriving Repr, DecidableEq

/-- `translateText` (src/services/gemini.ts:159–214), success path: builds
the new `TranslationResult` from the collaborator response.  The two
optional parameters `existingRecommendations` / `existingEssentialPhrases`
are copied into the result verbatim. -/
def translateText (text currentSourceLanguage targetLanguage : String)
    (originalConfidence : Nat)
    (existingRecommendations : Option (List Recommendation))
    (existingEssentialPhrases : Option (List EssentialPhrase))
    (resp : TextTranslationResponse) : TranslationResult :=
  { detectedText := text                                   -- Keep original text
    translatedText := resp.translatedText
    sourceLanguage := currentSourceLanguage                -- Keep original source language
    targetLanguage := resp.targetLanguage.getD targetLanguage
    confidenceScore := some originalConfidence             -- Keep original confidence
    recommendations := existingRecommendations
    essentialPhrases := existingEssentialPhrases
    travelTip := none }

/-- The `translateText(...)` call made by `handleReTranslation`
(src/App.tsx:102–107, identically src/unnamed/part_000:120–125): only four
arguments are supplied, so the two optional preserve-parameters are
`undefined` (`none`).  `result.confidenceScore || 0` is `getD 0`. -/
def handleReTranslationResult (result : TranslationResult) (langName : String)
    (resp : TextTranslationResponse) : TranslationResult :=
  translateText result.detectedText result.sourceLanguage langName
    (result.confidenceScore.getD 0) none none resp

/-! ## History store (src/App.tsx:51–65, src/unnamed/part_000:72–85)

`Date.now()` is called twice in `addToHistory` — once for `id`, once for
`timestamp` — so the embedding takes two clock readings `t1`, `t2`. -/

/-- The `newItem` built by `addToHistory` (src/App.tsx:52–58):
`id: Date.now().toString()` (first clock reading `t1`),
`timestamp: Date.now()` (second clock reading `t2`),
`imageUrl: undefined`. -/
def mkHistoryItem (translation : TranslationResult) (t1 t2 : Nat) : HistoryItem :=
  { translation := translation
    id := toString t1
    timestamp := t2
    imageUrl := none }

/-- `addToHistory` (src/App.tsx:51–60): prepend the new item and keep the
last 50 items (`[newItem, ...prev].slice(0, 50)`). -/
def addToHistory (translation : TranslationResult) (t1 t2 : Nat)
    (prev : List HistoryItem) : List HistoryItem :=
  (mkHistoryItem translation t1 t2 :: prev).take 50

/-- A whole sequence of appends, oldest first, starting from the empty
store (`useState<HistoryItem[]>([])`). -/
def appendAll (appends : List (TranslationResult × Nat × Nat)) : List HistoryItem :=
  appends.foldl (fun h a => addToHistory a.1 a.2.1 a.2.2 h) []

/-! ## PCM audio decoding (src/unnamed/part_002:23–43, `decodePcmAudio`)

Bytes are naturals below 256 (the range theorems carry the `< 256`
bounds).  `Int16Array` views each little-endian byte pair as a
two's-complement 16-bit integer; each sample is divided by `32768.0`.
16-bit integers divided by `2^15` are exactly representable in the IEEE
float32 samples the code produces, so the samples are modelled in `ℚ`
without loss. -/

/-- The 24 kHz sample rate used by `decodePcmAudio` (part_002:33) and
inline in `playAudioData` (TranslationCard.tsx:103). -/
def SAMPLE_RATE : Nat := 24000

/-- Two's-complement reading of a little-endian byte pair, as done by
`new Int16Array(pcmData)`. -/
def int16OfBytes (lo hi : Nat) : Int :=
  let v : Nat := lo + 256 * hi
  if v < 32768 then (v : Int) else (v : Int) - 65536

/-- The `Int16Array` view of a byte buffer: consecutive little-endian
pairs (a dangling final byte never reaches this point in the source,
because of the explicit odd-length trim). -/
def toInt16Array : List Nat → List Int
  | lo :: hi :: rest => int16OfBytes lo hi :: toInt16Array rest
  | _ => []

/-- The odd-length guard of `decodePcmAudio` (part_002:28–30):
`buffer.slice(0, byteLength - 1)` when the byte length is odd. -/
def trimOddByte (buffer : List Nat) : List Nat :=
  if buffer.length % 2 ≠ 0 then buffer.take (buffer.length - 1) else buffer

/-- `decodePcmAudio` (part_002:23–43): trim an odd trailing byte, view the
rest as int16 samples, and normalize each by dividing by `32768.0`
(part_002:39). -/
def decodePcmAudio (buffer : List Nat) : List ℚ :=
  (toInt16Array (trimOddByte buffer)).map (fun (v : Int) => (v : ℚ) / 32768)

/-! ## Audio playback engine (src/unnamed/part_002)

The `TranslationCard` player (`stopPlayback` / `playAudioData`,
part_002:227–258) and a representative `PhraseChip` player (`playPhrase`,
part_002:60–103) share one `AudioContext`, and each holds its own
`AudioBufferSourceNode` ref.  The system state tracks every source node
that has been started and not yet stopped (`activeSources`), how many
times each source's `onended` callback has fired (`endedCount`), and each
player's ref and `isPlaying` flag.  Fresh source-node ids come from
`nextId`. -/

/-- System-wide audio playback state. -/
structure AudioSystem where
  activeSources : List Nat
  endedCount : Nat → Nat
  cardSource : Option Nat
  cardIsPlaying : Bool
  chipSource : Option Nat
  chipIsPlaying : Bool
  nextId : Nat

/-- Initial state: nothing playing, no sources created. -/
def AudioSystem.init : AudioSystem :=
  { activeSources := []
    endedCount := fun _ => 0
    cardSource := none
    cardIsPlaying := false
    chipSource := none
    chipIsPlaying := false
    nextId := 0 }

/-- Web Audio `source.stop()` on a started node: if the node is still
active it stops and its `onended` callback fires once; stopping an
already-finished node does nothing further. -/
def stopSource (st : AudioSystem) (s : Nat) : AudioSystem :=
  if s ∈ st.activeSources then
    { st with
      activeSources := st.activeSources.erase s
      endedCount := fun n => if n = s then st.endedCount n + 1 else st.endedCount n }
  else st

/-- `stopPlayback` of the TranslationCard (part_002:227–236): stop the
held source node (if any), drop the ref, clear `isPlaying`. -/
def cardStopPlayback (st : AudioSystem) : AudioSystem :=
  let st1 := match st.cardSource with
    | some s => stopSource st s
    | none => st
  { st1 with cardSource := none, cardIsPlaying := false }

/-- `playAudioData` of the TranslationCard (part_002:238–258), success
path: `stopPlayback()` first, then create, connect and start a fresh
source node and set `isPlaying`. -/
def cardPlayAudioData (st : AudioSystem) : AudioSystem :=
  let st1 := cardStopPlayback st
  let s := st1.nextId
  { st1 with
    activeSources := s :: st1.activeSources
    cardSource := some s
    cardIsPlaying := true
    nextId := st1.nextId + 1 }

/-- `playPhrase` of a PhraseChip (part_002:60–103), with the speech fetch
succeeding: when already playing, stop the chip's own source and return
(toggle off); otherwise start a fresh source node for the phrase audio.
Note it only ever touches the chip's own `sourceRef`. -/
def chipPlayPhrase (st : AudioSystem) : AudioSystem :=
  if st.chipIsPlaying then
    match st.chipSource with
    | some s => { stopSource st s with chipIsPlaying := false }
    | none => st
  else
    let s := st.nextId
    { st with
      activeSources := s :: st.activeSources
      chipSource := some s
      chipIsPlaying := true
      nextId := st.nextId + 1 }

/-! ## Speech prefetch and playback request (part_002:260–293,
src/components/TranslationCard.tsx:137–178, `handlePlayAudio`)

The component state at click time is: the `isPlaying` flag, the resolved
prefetch bytes (`pcmData`), and the settled outcome of the in-flight
prefetch promise (`audioPromiseRef`), `none` when no prefetch was issued.
The foreground `generateSpeech` call is abstracted by its outcome
`fresh`. -/

/-- Raw audio bytes returned by the speech collaborator. -/
abbrev AudioBytes := List Nat

/-- The component state read by `handlePlayAudio`. -/
structure PlaybackState where
  isPlaying : Bool
  pcmData : Option AudioBytes
  audioPromise : Option (Except String AudioBytes)
deriving Repr

/-- What `handlePlayAudio` did. -/
inductive PlayOutcome where
  | stopped
  | played (data : AudioBytes)
  | failure
deriving Repr, DecidableEq

/-- `handlePlayAudio` (part_002:260–293): toggle off if playing; play the
resolved prefetch bytes if present; else await the in-flight prefetch
promise, falling back to a fresh `generateSpeech` call if it rejects; else
issue a fresh call.  Returns the outcome and the user-visible error
(`setError "Failed to load audio"`), `none` when no error is shown. -/
def handlePlayAudio (st : PlaybackState) (fresh : Except String AudioBytes) :
    PlayOutcome × Option String :=
  if st.isPlaying then (.stopped, none)
  else match st.pcmData with
    | some d => (.played d, none)
    | none =>
      match st.audioPromise with
      | some (Except.ok d) => (.played d, none)
      | some (Except.error _) =>
        match fresh with
        | .ok d => (.played d, none)
        | .error _ => (.failure, some "Failed to load audio")
      | none =>
        match fresh with
        | .ok d => (.played d, none)
        | .error _ => (.failure, some "Failed to load audio")

/-! ## Camera acquisition (src/components/CameraInput.tsx:48–165,
`startCamera`)

Each `getUserMedia` strategy is abstracted by its outcome: `.ok handle` or
`.error name`, where `name` is the DOMException name the catch blocks
inspect.  The trace records which strategies were attempted, in order. -/

/-- Result of the three-strategy acquisition loop: which strategies ran,
the acquired stream (if any), and the `lastError` variable. -/
structure AcquisitionTrace where
  attempted : List Nat
  stream : Option Nat
  lastError : Option String
deriving Repr, DecidableEq

/-- The fallback ladder of `startCamera` (CameraInput.tsx:58–109): try
strategy 1 (environment camera, ideal 1280x720); on failure strategy 2
(any camera, ideal 1280x720); on failure strategy 3 (`{video: true}`).
Each later strategy runs only under `if (!mediaStream)`. -/
def acquireCamera (r1 r2 r3 : Except String Nat) : AcquisitionTrace :=
  match r1 with
  | .ok s => { attempted := [1], stream := some s, lastError := none }
  | .error e1 =>
    match r2 with
    | .ok s => { attempted := [1, 2], stream := some s, lastError := some e1 }
    | .error e2 =>
      match r3 with
      | .ok s => { attempted := [1, 2, 3], stream := some s, lastError := some e2 }
      | .error e3 => { attempted := [1, 2, 3], stream := none, lastError := some e3 }

/-- The catch-block classification of `startCamera`
(CameraInput.tsx:151–163), keyed on the thrown error's `name`. -/
def classifyCameraError (name : String) : String :=
  if name = "NotAllowedError" || name = "PermissionDeniedError" then
    "Permission denied. Please allow camera access in your browser settings."
  else if name = "NotFoundError" then
    "No camera device found."
  else
    "Camera unavailable."

/-- `startCamera` (CameraInput.tsx:48–165), mounted component: on success
the stream is installed and no error is set; when all strategies fail,
`throw lastError` reaches the catch block, which sets the permission-error
message.  Returns `(streamRef, permissionErrorMsg)`. -/
def startCameraResult (r1 r2 r3 : Except String Nat) : Option Nat × Option String :=
  let t := acquireCamera r1 r2 r3
  match t.stream with
  | some s => (some s, none)
  | none => (none, some (classifyCameraError (t.lastError.getD "")))

/-! ## Error classification (src/App.tsx:116–130, `handleError`) -/

/-- Does the character list `s` start with `pat`? -/
def listStartsWith : List Char → List Char → Bool
  | _, [] => true
  | [], _ :: _ => false
  | c :: cs, p :: ps => c = p && listStartsWith cs ps

/-- Does the character list `s` contain `pat` as a contiguous run?
Mirrors JavaScript `String.prototype.includes`. -/
def listContainsSub : List Char → List Char → Bool
  | [], pat => pat.isEmpty
  | c :: rest, pat => listStartsWith (c :: rest) pat || listContainsSub rest pat

/-- JavaScript `errorMessage.includes(pat)`. -/
def strIncludes (s pat : String) : Bool :=
  listContainsSub s.toList pat.toList

/-- `handleError` (src/App.tsx:116–130): the message set into the Error
state, chosen by substring checks evaluated in order. -/
def handleError (errorMessage : String) : String :=
  if strIncludes errorMessage "403" || strIncludes errorMessage "PERMISSION_DENIED" then
    "Access Denied (403). Please ensure the API Key is valid."
  else if strIncludes errorMessage "429" then
    "Too many requests. Please wait a moment and try again."
  else if strIncludes errorMessage "400" then
    "Bad Request. The image format might not be supported."
  else
    "Unable to process. Please check your internet connection."

/-! ## Session state machine (src/App.tsx)

The React component state relevant to the claims, with the collaborator
outcomes and clock readings passed explicitly. -/

/-- The App component state (src/App.tsx:22–38). -/
structure AppSt where
  appState : AppState
  selectedImage : Option String
  result : Option TranslationResult
  errorMsg : Option String
  processingStage : ProcessingStage
  history : List HistoryItem
deriving Repr, DecidableEq

/-- `handleHistorySelect` (src/App.tsx:67–72): replay a stored item into
the Success state — sets the result, clears the image, and sets
`AppState.SUCCESS`.  It does not touch the history. -/
def handleHistorySelect (st : AppSt) (item : HistoryItem) : AppSt :=
  { st with
    result := some item.translation
    selectedImage := none
    appState := AppState.SUCCESS }

/-- `handleImageSelected` (src/App.tsx:75–91) when `translateImage`
resolves with `translation`; `t1 t2` are the two `Date.now()` readings
inside `addToHistory`. -/
def handleImageSelectedSuccess (st : AppSt) (base64 : String)
    (translation : TranslationResult) (t1 t2 : Nat) : AppSt :=
  { st with
    selectedImage := some base64
    processingStage := ProcessingStage.reading
    errorMsg := none
    result := some translation
    history := addToHistory translation t1 t2 st.history
    appState := AppState.SUCCESS }

/-- `handleReTranslation` (src/App.tsx:94–114) when the `translateText`
call resolves with `resp`: early-returns when there is no current result;
otherwise installs the re-translated result, appends it to the history,
and enters Success. -/
def handleReTranslationSuccess (st : AppSt) (langName : String)
    (resp : TextTranslationResponse) (t1 t2 : Nat) : AppSt :=
  match st.result with
  | none => st
  | some r =>
    let newTranslation := handleReTranslationResult r langName resp
    { st with
      processingStage := ProcessingStage.translating
      errorMsg := none
      result := some newTranslation
      history := addToHistory newTranslation t1 t2 st.history
      appState := AppState.SUCCESS }

/-! Concrete demonstration values used by witnesses and counterexamples. -/

/-- A concrete translation result, shaped like end-to-end scenario A of the
spec, with recommendations and essential phrases present. -/
def demoResult : TranslationResult :=
  { detectedText := "EXIT"
    translatedText := "purathekku"
    sourceLanguage := "English"
    targetLanguage := "Malayalam"
    confidenceScore := some 92
    recommendations := some [{ name := "Fort Kochi", description := "Historic coastal quarter" }]
    essentialPhrases := some [{ label := "Hello", text := "namaskaram", pronunciation := "na-mas-kaa-ram" }]
    travelTip := none }

/-- A concrete collaborator response for the text-only translation call. -/
def demoResponse : TextTranslationResponse :=
  { translatedText := "Sortie", targetLanguage := some "French" }

/-- A concrete history item: `demoResult` appended with both clock
readings equal to 1700000000000. -/
def demoItem : HistoryItem := mkHistoryItem demoResult 1700000000000 1700000000000

/-- A single-append sequence. -/
def demoAppends : List (TranslationResult × Nat × Nat) :=
  [(demoResult, 1700000000000, 1700000000000)]

/-- An audio system with the card currently playing source 5. -/
def demoAudioSt : AudioSystem :=
  { activeSources := [5]
    endedCount := fun _ => 0
    cardSource := some 5
    cardIsPlaying := true
    chipSource := none
    chipIsPlaying := false
    nextId := 6 }

/-- A playback state whose prefetch promise has rejected. -/
def demoPlaybackSt : PlaybackState :=
  { isPlaying := false
    pcmData := none
    audioPromise := some (Except.error "prefetch failed") }

/-- An idle app state whose history holds `demoItem`. -/
def demoIdleState : AppSt :=
  { appState := AppState.IDLE
    selectedImage := none
    result := none
    errorMsg := none
    processingStage := ProcessingStage.reading
    history := [demoItem] }

/-- A Success app state holding `demoResult` and an empty history. -/
def demoSuccessState : AppSt :=
  { appState := AppState.SUCCESS
    selectedImage := none
    result := some demoResult
    errorMsg := none
    processingStage := ProcessingStage.reading
    history := [] }

/-! Shared helper lemmas. -/

/-- Truncating an already-truncated right summand does not change a
length-`n` prefix of an append. -/
theorem take_append_take {α : Type} (X Y : List α) (n : Nat) :
    (X ++ Y.take n).take n = (X ++ Y).take n := by
  rw [List.take_append_eq_append_take, List.take_append_eq_append_take,
    List.take_take, Nat.min_eq_left (Nat.sub_le n _)]

/-- Folding `addToHistory` over a sequence of appends yields the reversed
append sequence, truncated to 50, in front of the initial store. -/
theorem foldl_addToHistory (appends : List (TranslationResult × Nat × Nat))
    (acc : List HistoryItem) (hacc : acc.length ≤ 50) :
    appends.foldl (fun h a => addToHistory a.1 a.2.1 a.2.2 h) acc
      = ((appends.reverse.map fun a => mkHistoryItem a.1 a.2.1 a.2.2) ++ acc).take 50 := by
  induction appends generalizing acc with
  | nil => simp [List.take_of_length_le hacc]
  | cons a rest ih =>
    have hlen : (addToHistory a.1 a.2.1 a.2.2 acc).length ≤ 50 := by
      simp only [addToHistory, List.length_take]
      omega
    rw [List.foldl_cons, ih _ hlen, List.reverse_cons,
      List.map_append, List.append_assoc]
    simpa [addToHistory] using
      take_append_take (List.map (fun a => mkHistoryItem a.1 a.2.1 a.2.2) rest.reverse)
        (mkHistoryItem a.1 a.2.1 a.2.2 :: acc) 50

/-- Any byte pair below 256 decodes to an int16 value. -/
theorem int16OfBytes_bounds (lo hi : Nat) (hlo : lo < 256) (hhi : hi < 256) :
    -32768 ≤ int16OfBytes lo hi ∧ int16OfBytes lo hi ≤ 32767 := by
  simp only [int16OfBytes]
  split <;> constructor <;> omega

/-- Every entry of the int16 view of a byte buffer is an int16 value. -/
theorem toInt16Array_mem_bounds :
    ∀ (l : List Nat), (∀ b ∈ l, b < 256) →
      ∀ v ∈ toInt16Array l, -32768 ≤ v ∧ v ≤ 32767
  | [], _, v, hv => by simp [toInt16Array] at hv
  | [_], _, v, hv => by simp [toInt16Array] at hv
  | lo :: hi :: rest, hb, v, hv => by
    rw [toInt16Array] at hv
    rcases List.mem_cons.mp hv with h | h
    · subst h
      exact int16OfBytes_bounds lo hi (hb lo (by simp)) (hb hi (by simp))
    · exact toInt16Array_mem_bounds rest (fun b hbm => hb b (by simp [hbm])) v h

/-- The int16 view holds one sample per byte pair. -/
theorem toInt16Array_length :
    ∀ (l : List Nat), (toInt16Array l).length = l.length / 2
  | [] => by simp [toInt16Array]
  | [_] => by simp [toInt16Array]
  | _ :: _ :: rest => by
    rw [toInt16Array]
    simp only [List.length_cons]
    rw [toInt16Array_length rest]
    omega

/-- Normalizing an int16 value lands in `[-1, 32767/32768]`. -/
theorem sample_bounds (v : Int) (h1 : -32768 ≤ v) (h2 : v ≤ 32767) :
    -1 ≤ (v : ℚ) / 32768 ∧ (v : ℚ) / 32768 ≤ 32767 / 32768 := by
  have hv1 : (-32768 : ℚ) ≤ (v : ℚ) := by exact_mod_cast h1
  have hv2 : (v : ℚ) ≤ 32767 := by exact_mod_cast h2
  constructor
  · calc (-1 : ℚ) = -32768 / 32768 := by norm_num
    _ ≤ (v : ℚ) / 32768 := div_le_div_of_nonneg_right hv1 (by norm_num)
  · exact div_le_div_of_nonneg_right hv2 (by norm_num)

/-- The odd-byte guard is the identity on even-length buffers. -/
theorem trimOddByte_even (buffer : List Nat) (h : buffer.length % 2 = 0) :
    trimOddByte buffer = buffer := by
  simp [trimOddByte, h]

/-- The odd-byte guard drops exactly the final byte of an odd-length
buffer. -/
theorem trimOddByte_odd (buffer : List Nat) (h : buffer.length % 2 = 1) :
    trimOddByte buffer = buffer.take (buffer.length - 1) := by
  simp [trimOddByte, h]

/-! Claim theorems. -/

/-- C1: the claim says a language switch in the Success state performs the
text-only re-translation and the resulting `TranslationResult` preserves the
prior result's recommendations, essentialPhrases and confidenceScore
unchanged.  The code contradicts this: `handleReTranslation` passes only
four arguments to `translateText`, so the `existingRecommendations` and
`existingEssentialPhrases` parameters — which gemini.ts documents as
"Preserve recommendations" / "Preserve phrases" — stay `undefined`, and the
new result drops both lists.  Evaluated at a prior result that has one
recommendation and one essential phrase: both come back `none`, while
detectedText, sourceLanguage and confidenceScore are carried over. -/
theorem retranslation_drops_prior_recommendations :
    (handleReTranslationResult demoResult "French" demoResponse).recommendations = none ∧
    (handleReTranslationResult demoResult "French" demoResponse).essentialPhrases = none ∧
    demoResult.recommendations ≠ none ∧
    demoResult.essentialPhrases ≠ none ∧
    (handleReTranslationResult demoResult "French" demoResponse).detectedText
      = demoResult.detectedText ∧
    (handleReTranslationResult demoResult "French" demoResponse).sourceLanguage
      = demoResult.sourceLanguage ∧
    (handleReTranslationResult demoResult "French" demoResponse).confidenceScore
      = demoResult.confidenceScore := by
  decide

/-- C2 counterexample: playback mutual exclusion is not system-wide.
Starting from the idle audio system, the translation card starts playback
(source 0); a phrase chip then starts its own playback (source 1) without
stopping the card's, leaving two active playbacks at once — the card's
source 0 is still active. -/
theorem phrase_playback_concurrent_with_card_counterexample :
    ((chipPlayPhrase (cardPlayAudioData AudioSystem.init)).activeSources).length = 2 ∧
    (cardPlayAudioData AudioSystem.init).cardIsPlaying = true ∧
    (0 : Nat) ∈ (chipPlayPhrase (cardPlayAudioData AudioSystem.init)).activeSources ∧
    (1 : Nat) ∈ (chipPlayPhrase (cardPlayAudioData AudioSystem.init)).activeSources := by
  decide

/-- C2 (amended): mutual exclusion holds per player, not system-wide.
Within the translation-card player, starting playback of a new buffer while
playback `a` is active first stops `a` — `a` leaves the active set, its
completion callback fires exactly once (via the stop, not a natural end) —
and afterwards the card holds exactly one active playback, with the total
number of active playbacks unchanged. -/
theorem card_playback_mutual_exclusion (st : AudioSystem) (a : Nat)
    (h1 : st.cardSource = some a)
    (h2 : st.activeSources.count a = 1)
    (h3 : st.endedCount a = 0)
    (h4 : a ≠ st.nextId)
    (h5 : st.nextId ∉ st.activeSources) :
    (cardPlayAudioData st).cardSource = some st.nextId ∧
    st.nextId ∈ (cardPlayAudioData st).activeSources ∧
    a ∉ (cardPlayAudioData st).activeSources ∧
    (cardPlayAudioData st).endedCount a = 1 ∧
    (cardPlayAudioData st).activeSources.count st.nextId = 1 ∧
    (cardPlayAudioData st).activeSources.length = st.activeSources.length := by
  have ha : a ∈ st.activeSources := by
    by_contra hna
    rw [List.count_eq_zero.mpr hna] at h2
    exact absurd h2 (by norm_num)
  have hcount0 : (st.activeSources.erase a).count a = 0 := by
    rw [List.count_erase_self, h2]
  have hnotmem_erase : a ∉ st.activeSources.erase a := List.count_eq_zero.mp hcount0
  have hnext_not_erase : st.nextId ∉ st.activeSources.erase a :=
    fun hmem => h5 (List.erase_subset _ _ hmem)
  refine ⟨?_, ?_, ?_, ?_, ?_, ?_⟩ <;>
    simp only [cardPlayAudioData, cardStopPlayback, stopSource, h1, if_pos ha]
  · exact List.mem_cons_self _ _
  · simp [List.mem_cons, h4, hnotmem_erase]
  · simp [h3]
  · rw [List.count_cons_self, List.count_eq_zero.mpr hnext_not_erase]
  · rw [List.length_cons, List.length_erase_of_mem ha]
    have hpos : 0 < st.activeSources.length := List.length_pos.mpr (by
      intro hnil
      rw [hnil] at ha
      exact absurd ha (List.not_mem_nil a))
    omega

/-- C2 witness: the amended mutual-exclusion theorem applied to a concrete
state where the card is playing source 5. -/
theorem card_playback_mutual_exclusion_witness :
    demoAudioSt.cardSource = some 5 ∧
    demoAudioSt.activeSources.count 5 = 1 ∧
    ((cardPlayAudioData demoAudioSt).cardSource = some 6 ∧
     6 ∈ (cardPlayAudioData demoAudioSt).activeSources ∧
     5 ∉ (cardPlayAudioData demoAudioSt).activeSources ∧
     (cardPlayAudioData demoAudioSt).endedCount 5 = 1 ∧
     (cardPlayAudioData demoAudioSt).activeSources.count 6 = 1 ∧
     (cardPlayAudioData demoAudioSt).activeSources.length
       = demoAudioSt.activeSources.length) :=
  ⟨rfl, by decide,
   card_playback_mutual_exclusion demoAudioSt 5 rfl (by decide) rfl
     (by decide) (by decide)⟩

/-- C3: for every sequence of appends starting from the empty store, the
store holds exactly `min N 50` items; it equals the reversed append
sequence (newest first) truncated to the 50 most recent; and every stored
item has its image stripped (`imageUrl = none`). -/
theorem history_append_bound (appends : List (TranslationResult × Nat × Nat)) :
    (appendAll appends).length = min appends.length 50 ∧
    appendAll appends
      = (appends.reverse.map fun a => mkHistoryItem a.1 a.2.1 a.2.2).take 50 ∧
    ∀ item ∈ appendAll appends, item.imageUrl = none := by
  have h2 : appendAll appends
      = (appends.reverse.map fun a => mkHistoryItem a.1 a.2.1 a.2.2).take 50 := by
    simpa [appendAll] using foldl_addToHistory appends [] (by simp)
  refine ⟨?_, h2, ?_⟩
  · rw [h2, List.length_take, List.length_map, List.length_reverse, Nat.min_comm]
  · intro item hmem
    rw [h2] at hmem
    obtain ⟨a, -, rfl⟩ := List.mem_map.mp (List.take_subset _ _ hmem)
    rfl

/-- C3 witness: the history theorem applied to a concrete single-append
sequence, with the image-stripping conjunct discharged at the concrete
stored item. -/
theorem history_append_bound_witness :
    (appendAll demoAppends).length = min demoAppends.length 50 ∧
    demoItem.imageUrl = none :=
  ⟨(history_append_bound demoAppends).1,
   (history_append_bound demoAppends).2.2 demoItem (by decide)⟩

/-- C4: for every byte buffer, every decoded sample lies in `[-1, 1]`; an
even-length buffer decodes all its byte pairs (`length / 2` samples); an
odd-length buffer decodes exactly as the buffer with its final dangling
byte removed (and `decodePcmAudio` is a total function — it cannot
throw). -/
theorem decodePcm_range_and_odd_trim (buffer : List Nat)
    (hb : ∀ b ∈ buffer, b < 256) :
    (∀ s ∈ decodePcmAudio buffer, -1 ≤ s ∧ s ≤ 1) ∧
    (buffer.length % 2 = 0 → (decodePcmAudio buffer).length = buffer.length / 2) ∧
    (buffer.length % 2 = 1 →
      decodePcmAudio buffer = decodePcmAudio (buffer.take (buffer.length - 1)) ∧
      (decodePcmAudio buffer).length = (buffer.length - 1) / 2) := by
  have htrim : ∀ b ∈ trimOddByte buffer, b < 256 := by
    intro b hbm
    apply hb
    simp only [trimOddByte] at hbm
    split at hbm
    · exact List.take_subset _ _ hbm
    · exact hbm
  refine ⟨?_, ?_, ?_⟩
  · intro s hs
    simp only [decodePcmAudio, List.mem_map] at hs
    obtain ⟨v, hv, rfl⟩ := hs
    have hbd := toInt16Array_mem_bounds _ htrim v hv
    have hsb := sample_bounds v hbd.1 hbd.2
    exact ⟨hsb.1, hsb.2.trans (by norm_num)⟩
  · intro heven
    simp only [decodePcmAudio, List.length_map]
    rw [trimOddByte_even buffer heven, toInt16Array_length]
  · intro hodd
    have hlen : (buffer.take (buffer.length - 1)).length = buffer.length - 1 := by
      rw [List.length_take]
      omega
    have heven2 : (buffer.take (buffer.length - 1)).length % 2 = 0 := by
      rw [hlen]; omega
    constructor
    · simp only [decodePcmAudio]
      rw [trimOddByte_odd buffer hodd, trimOddByte_even _ heven2]
    · simp only [decodePcmAudio, List.length_map]
      rw [trimOddByte_odd buffer hodd, toInt16Array_length, hlen]

/-- C4 witness: the decode theorem applied to the concrete odd-length
buffer `[0, 128, 7]`, whose final byte is dropped. -/
theorem decodePcm_range_and_odd_trim_witness :
    decodePcmAudio [0, 128, 7]
      = decodePcmAudio (([0, 128, 7] : List Nat).take
          (([0, 128, 7] : List Nat).length - 1)) ∧
    (decodePcmAudio [0, 128, 7]).length
      = (([0, 128, 7] : List Nat).length - 1) / 2 :=
  ⟨((decodePcm_range_and_odd_trim [0, 128, 7] (by decide)).2.2 (by decide)).1,
   ((decodePcm_range_and_odd_trim [0, 128, 7] (by decide)).2.2 (by decide)).2⟩

/-- C5: if the in-flight prefetch promise has rejected, a playback request
falls back to a fresh speech-synthesis call and succeeds whenever that call
succeeds; and across all states, a user-visible error is raised only when
the foreground call itself fails. -/
theorem prefetch_reject_falls_back (st : PlaybackState) (e : String)
    (hplay : st.isPlaying = false)
    (hpcm : st.pcmData = none)
    (hpf : st.audioPromise = some (Except.error e)) :
    (∀ d, handlePlayAudio st (Except.ok d) = (PlayOutcome.played d, none)) ∧
    (∀ (st2 : PlaybackState) (fresh : Except String AudioBytes),
      (handlePlayAudio st2 fresh).2.isSome = true →
        (∃ err, fresh = Except.error err) ∧
        (handlePlayAudio st2 fresh).1 = PlayOutcome.failure) := by
  constructor
  · intro d
    simp [handlePlayAudio, hplay, hpcm, hpf]
  · intro st2 fresh herr
    rcases hp : st2.isPlaying with _ | _ <;>
      rcases hd : st2.pcmData with _ | d <;>
        rcases ha : st2.audioPromise with _ | ⟨e2 | d2⟩ <;>
          rcases hf : fresh with e3 | d3 <;>
            simp_all [handlePlayAudio]

/-- C5 witness: the fallback theorem applied to a concrete state whose
prefetch promise rejected, with the fresh call succeeding. -/
theorem prefetch_reject_falls_back_witness :
    demoPlaybackSt.audioPromise = some (Except.error "prefetch failed") ∧
    handlePlayAudio demoPlaybackSt (Except.ok [1, 2])
      = (PlayOutcome.played [1, 2], none) :=
  ⟨rfl, (prefetch_reject_falls_back demoPlaybackSt "prefetch failed" rfl rfl rfl).1
    [1, 2]⟩

/-- C6: the camera fallback ladder tries the three constraint strategies in
order; each later strategy runs only if every earlier one failed; the first
success supplies the stream with no error; and an error is reported exactly
when all three strategies fail. -/
theorem camera_fallback_ladder (r1 r2 r3 : Except String Nat) :
    (∀ s, r1 = Except.ok s →
      acquireCamera r1 r2 r3
        = { attempted := [1], stream := some s, lastError := none } ∧
      startCameraResult r1 r2 r3 = (some s, none)) ∧
    (∀ e1 s, r1 = Except.error e1 → r2 = Except.ok s →
      (acquireCamera r1 r2 r3).attempted = [1, 2] ∧
      startCameraResult r1 r2 r3 = (some s, none)) ∧
    (∀ e1 e2 s, r1 = Except.error e1 → r2 = Except.error e2 → r3 = Except.ok s →
      (acquireCamera r1 r2 r3).attempted = [1, 2, 3] ∧
      startCameraResult r1 r2 r3 = (some s, none)) ∧
    (∀ e1 e2 e3, r1 = Except.error e1 → r2 = Except.error e2 → r3 = Except.error e3 →
      (acquireCamera r1 r2 r3).stream = none ∧
      startCameraResult r1 r2 r3 = (none, some (classifyCameraError e3))) ∧
    ((startCameraResult r1 r2 r3).2.isSome = true ↔
      (∃ e1, r1 = Except.error e1) ∧ (∃ e2, r2 = Except.error e2) ∧
      (∃ e3, r3 = Except.error e3)) := by
  rcases r1 with e1 | s1 <;> rcases r2 with e2 | s2 <;> rcases r3 with e3 | s3 <;>
    simp [acquireCamera, startCameraResult]

/-- C6 witness: the ladder theorem applied with strategies 1 and 2 failing
and strategy 3 succeeding with handle 7. -/
theorem camera_fallback_ladder_witness :
    (acquireCamera (Except.error "NotAllowedError")
      (Except.error "OverconstrainedError") (Except.ok 7)).attempted = [1, 2, 3] ∧
    startCameraResult (Except.error "NotAllowedError")
      (Except.error "OverconstrainedError") (Except.ok 7) = (some 7, none) :=
  (camera_fallback_ladder (Except.error "NotAllowedError")
    (Except.error "OverconstrainedError") (Except.ok 7)).2.2.1
    "NotAllowedError" "OverconstrainedError" 7 rfl rfl rfl

/-- C7 counterexample: the claim quantifies over every message containing
"429", but `handleError` checks the authorization signatures first, so a
message containing both "403" and "429" gets the access-denied message, not
the rate-limit one. -/
theorem rate_limit_message_shadowed_counterexample :
    strIncludes "403 quota: 429" "429" = true ∧
    handleError "403 quota: 429"
      = "Access Denied (403). Please ensure the API Key is valid." ∧
    handleError "403 quota: 429"
      ≠ "Too many requests. Please wait a moment and try again." := by
  decide

/-- C7 (amended): every failure message that contains "429" and contains
neither authorization signature ("403" / "PERMISSION_DENIED") yields the
rate-limit message; and every message matching none of the known signatures
yields the generic connectivity message. -/
theorem error_classification_amended (msg : String)
    (h429 : strIncludes msg "429" = true)
    (h403 : strIncludes msg "403" = false)
    (hperm : strIncludes msg "PERMISSION_DENIED" = false) :
    handleError msg = "Too many requests. Please wait a moment and try again." ∧
    (∀ m : String, strIncludes m "403" = false →
      strIncludes m "PERMISSION_DENIED" = false →
      strIncludes m "429" = false → strIncludes m "400" = false →
      handleError m = "Unable to process. Please check your internet connection.") := by
  constructor
  · simp [handleError, h429, h403, hperm]
  · intro m m403 mperm m429 m400
    simp [handleError, m403, mperm, m429, m400]

/-- C7 witness: the amended classification theorem applied to the concrete
messages "HTTP error 429" and "network down". -/
theorem error_classification_amended_witness :
    handleError "HTTP error 429"
      = "Too many requests. Please wait a moment and try again." ∧
    handleError "network down"
      = "Unable to process. Please check your internet connection." :=
  ⟨(error_classification_amended "HTTP error 429" (by decide) (by decide)
      (by decide)).1,
   (error_classification_amended "HTTP error 429" (by decide) (by decide)
      (by decide)).2 "network down" (by decide) (by decide) (by decide) (by decide)⟩

/-- C8 counterexample: replaying a stored history item enters the Success
state without appending anything — `handleHistorySelect` sets the result
and `AppState.SUCCESS` but leaves the history exactly as it was, refuting
the claim that every transition into Success appends its result. -/
theorem history_replay_no_append_counterexample :
    (handleHistorySelect demoIdleState demoItem).appState = AppState.SUCCESS ∧
    (handleHistorySelect demoIdleState demoItem).result = some demoItem.translation ∧
    (handleHistorySelect demoIdleState demoItem).history = demoIdleState.history :=
  ⟨rfl, rfl, rfl⟩

/-- C8 (amended): the two transitions into Success that complete a
translation (full image analysis and text-only re-translation) install the
new result and append exactly that result to the history; the history-replay
transition enters Success with the history unchanged. -/
theorem success_transition_appends_amended (st : AppSt) (base64 : String)
    (translation : TranslationResult) (langName : String)
    (resp : TextTranslationResponse) (t1 t2 : Nat) (r : TranslationResult)
    (item : HistoryItem) (hr : st.result = some r) :
    ((handleImageSelectedSuccess st base64 translation t1 t2).appState
        = AppState.SUCCESS ∧
     (handleImageSelectedSuccess st base64 translation t1 t2).result
        = some translation ∧
     (handleImageSelectedSuccess st base64 translation t1 t2).history
        = addToHistory translation t1 t2 st.history) ∧
    ((handleReTranslationSuccess st langName resp t1 t2).appState
        = AppState.SUCCESS ∧
     (handleReTranslationSuccess st langName resp t1 t2).result
        = some (handleReTranslationResult r langName resp) ∧
     (handleReTranslationSuccess st langName resp t1 t2).history
        = addToHistory (handleReTranslationResult r langName resp) t1 t2 st.history) ∧
    ((handleHistorySelect st item).appState = AppState.SUCCESS ∧
     (handleHistorySelect st item).history = st.history) := by
  refine ⟨⟨rfl, rfl, rfl⟩, ?_, rfl, rfl⟩
  simp [handleReTranslationSuccess, hr]

/-- C8 witness: the amended transition theorem applied to a concrete
Success state holding `demoResult`. -/
theorem success_transition_appends_amended_witness :
    demoSuccessState.result = some demoResult ∧
    ((handleHistorySelect demoSuccessState demoItem).appState = AppState.SUCCESS ∧
     (handleHistorySelect demoSuccessState demoItem).history
       = demoSuccessState.history) :=
  ⟨rfl, (success_transition_appends_amended demoSuccessState "img" demoResult
    "French" demoResponse 1 1 demoResult demoItem rfl).2.2⟩

/-- C9: every decoded sample is an int16 value divided by exactly 32768,
so the decoded range is precisely `[-1, 32767/32768]`: `-1` is attained
(for the sample bytes `0x00 0x80`, i.e. -32768) and `+1` is never
produced. -/
theorem decodePcm_exact_range (buffer : List Nat)
    (hb : ∀ b ∈ buffer, b < 256) :
    (∀ s ∈ decodePcmAudio buffer, ∃ v : Int,
      -32768 ≤ v ∧ v ≤ 32767 ∧ s = (v : ℚ) / 32768) ∧
    (∀ s ∈ decodePcmAudio buffer, -1 ≤ s ∧ s ≤ 32767 / 32768 ∧ s < 1) ∧
    decodePcmAudio [0, 128] = [-1] := by
  have htrim : ∀ b ∈ trimOddByte buffer, b < 256 := by
    intro b hbm
    apply hb
    simp only [trimOddByte] at hbm
    split at hbm
    · exact List.take_subset _ _ hbm
    · exact hbm
  refine ⟨?_, ?_, ?_⟩
  · intro s hs
    simp only [decodePcmAudio, List.mem_map] at hs
    obtain ⟨v, hv, rfl⟩ := hs
    have hbd := toInt16Array_mem_bounds _ htrim v hv
    exact ⟨v, hbd.1, hbd.2, rfl⟩
  · intro s hs
    simp only [decodePcmAudio, List.mem_map] at hs
    obtain ⟨v, hv, rfl⟩ := hs
    have hbd := toInt16Array_mem_bounds _ htrim v hv
    have hsb := sample_bounds v hbd.1 hbd.2
    exact ⟨hsb.1, hsb.2, hsb.2.trans_lt (by norm_num)⟩
  · norm_num [decodePcmAudio, toInt16Array, trimOddByte, int16OfBytes]

/-- C9 witness: the exact-range theorem applied to the concrete buffer
`[0, 128]`, whose single sample is the attained minimum `-1`. -/
theorem decodePcm_exact_range_witness :
    -1 ≤ (-1 : ℚ) ∧ (-1 : ℚ) ≤ 32767 / 32768 ∧ (-1 : ℚ) < 1 :=
  (decodePcm_exact_range [0, 128] (by decide)).2.1 (-1)
    (by norm_num [decodePcmAudio, toInt16Array, trimOddByte, int16OfBytes])

/-- C10 counterexample: `id` and `timestamp` come from two separate
`Date.now()` calls; when the clock ticks between them the id is not the
decimal rendering of the stored timestamp. -/
theorem history_id_timestamp_counterexample :
    (mkHistoryItem demoResult 1700000000000 1700000000001).id
      ≠ toString (mkHistoryItem demoResult 1700000000000 1700000000001).timestamp := by
  decide

/-- C10 (amended): an appended item's id is the decimal rendering of the
first of the two consecutive clock readings; when the clock does not
advance between the two calls the id equals the string of the stored
timestamp; and any two items appended with the same first reading (the
same millisecond) receive identical ids, so ids are not unique. -/
theorem history_id_clock_amended (r r2 : TranslationResult) (t1 t2 : Nat) :
    (mkHistoryItem r t1 t2).id = toString t1 ∧
    (mkHistoryItem r t1 t1).id = toString (mkHistoryItem r t1 t1).timestamp ∧
    (mkHistoryItem r t1 t2).id = (mkHistoryItem r2 t1 t2).id :=
  ⟨rfl, rfl, rfl⟩

end KeralaLens
